import Mathlib

/-!
Verification development for the Agent-Availability-Script repository
(`src/agent_availability.py`).  The Python source is shallowly embedded:

* file contents are modelled as the list of physical lines a
  `readlines()` call would produce (a zero-byte file is the empty list);
* Python `datetime` values are modelled by a `DateTime` structure whose
  linear order and 24-hour arithmetic are realised through a
  microsecond count (`DateTime.toMicros`), which is exactly how naive
  `datetime` comparison and `timedelta` subtraction behave;
* the single exception class `CSVValidationError` is split into one
  constructor per raise site, following the distinct message templates,
  plus one constructor for the uncaught `AttributeError` that
  `None.strip()` raises inside `validate_baseline_csv`;
* the ambient wall clock read by `datetime.now()` inside
  `is_within_last_24_hours` is made an explicit `now` argument, as any
  shallow embedding of an effect must.
-/

namespace AgentAvailability

/-- The double-quote character. -/
def quoteChar : Char := Char.ofNat 34

/-- The apostrophe (single-quote) character. -/
def aposChar : Char := Char.ofNat 39

/-- The byte-order mark, stripped from header tokens by the source. -/
def bomChar : Char := Char.ofNat 65279

/-- ASCII whitespace as recognised by Python `str.strip()` (the model is
restricted to ASCII input, which is all the repository exercises). -/
def isPyWs (c : Char) : Bool :=
  c == ' ' || c == '\t' || c == '\n' || c == '\r' ||
    c == Char.ofNat 11 || c == Char.ofNat 12

/-- Remove leading and trailing characters satisfying `p`, the semantics
of Python `str.strip(chars)`. -/
def stripList (p : Char → Bool) (l : List Char) : List Char :=
  ((l.dropWhile p).reverse.dropWhile p).reverse

/-- Python `str.strip(chars)` on strings. -/
def stripChars (p : Char → Bool) (s : String) : String :=
  (stripList p s.data).asString

/-- Python `str.strip()` with no argument: trim whitespace. -/
def pyStrip (s : String) : String := stripChars isPyWs s

/-- Python `str.strip('﻿')`. -/
def stripBom (s : String) : String := stripChars (fun c => c == bomChar) s

/-- Python `str.strip('"')`. -/
def stripQuotes (s : String) : String := stripChars (fun c => c == quoteChar) s

/-- Python `str.strip("'")`. -/
def stripApos (s : String) : String := stripChars (fun c => c == aposChar) s

/-- ASCII lower-casing, the semantics of Python `str.lower()` on the
ASCII inputs this model covers. -/
def lowerAscii (s : String) : String := (s.data.map Char.toLower).asString

/-- Cleaning `p.strip().strip('"').strip("'")`, the cleaning applied to the data
fields of an availability row (`validate_availability_csv`, lines
259-264). -/
def cleanData (s : String) : String := stripApos (stripQuotes (pyStrip s))

/-- Cleaning `h.strip().strip('﻿').strip('"').strip("'")`, the cleaning
applied to each availability header token (lines 219 and 222). -/
def cleanTok (s : String) : String := stripApos (stripQuotes (stripBom (pyStrip s)))

/-- The quote-aware comma splitter of `validate_availability_csv`
(lines 237-249): a `"` toggles the in-quotes flag and is dropped, a `,`
outside quotes terminates the current field, anything else is
accumulated. -/
def splitCsvAux : Bool → List Char → List Char → List String
  | _, acc, [] => [acc.reverse.asString]
  | inQ, acc, c :: rest =>
    if c == quoteChar then splitCsvAux (!inQ) acc rest
    else if c == ',' && !inQ then acc.reverse.asString :: splitCsvAux inQ [] rest
    else splitCsvAux inQ (c :: acc) rest

/-- Split a (already stripped) data line into logical fields. -/
def splitCsvLine (s : String) : List String := splitCsvAux false [] s.data

/-- The error outcomes of the source, one constructor per raise site of
`CSVValidationError` (classified by its distinct message templates),
plus two constructors for the uncaught faults of
`validate_baseline_csv`'s row loop: `keyError` for the `KeyError`
raised by `row["Domain"]`/`row["Agent Name"]` when the raw
`csv.DictReader` fieldnames are not exactly those strings (the header
check compares only their STRIPPED forms), and `noneAttributeError`
for the `AttributeError` raised by `.strip()` when `DictReader` padded
a short row with `None`. -/
inductive PyError where
  | fileNotFound
  | emptyFile
  | headerMismatch (got : List String)
  | malformedRow (row : Nat)
  | emptyField (row : Nat)
  | noRecords
  | invalidDateFormat (s : String)
  | keyError (key : String)
  | noneAttributeError
deriving DecidableEq, Repr

/-- A CSV input file: either the path does not exist, or the file is
present with the given physical lines (`readlines()` output with the
line terminators dropped, which every consumer immediately strips
anyway).  A zero-byte file is `present []`. -/
inductive FileInput where
  | missing
  | present (lines : List String)

/-- The lower-cased expected availability header
(`AVAILABILITY_COLUMNS` after `h.lower()`). -/
def availExpectedLower : List String := ["domain", "agent name", "last available date"]

/-- Python `str.split(',')`: split on every comma, keeping empty
fields (`"".split(',')` is `[""]`). -/
def splitCommaAux : List Char → List Char → List String
  | acc, [] => [acc.reverse.asString]
  | acc, c :: rest =>
    if c == ',' then acc.reverse.asString :: splitCommaAux [] rest
    else splitCommaAux (c :: acc) rest

def splitComma (s : String) : List String := splitCommaAux [] s.data

/-- One iteration of the data-row loop of `validate_availability_csv`
(lines 230-271): strip the line, skip it when blank, split it with the
quote-aware splitter, require at least three fields, clean the first two
into domain and agent name, rejoin the cleaned remaining fields with
`", "` into the date string, and reject empty domain or agent name. -/
def processAvailLine (rowNum : Nat) (line : String) :
    Except PyError (Option (String × String × String)) :=
  let l := pyStrip line
  if l = "" then .ok none
  else
    let parts := splitCsvLine l
    if parts.length < 3 then .error (.malformedRow rowNum)
    else
      let domain := cleanData (parts.headD "")
      let agent := cleanData (parts.getD 1 "")
      let date := String.intercalate ", " ((parts.drop 2).map cleanData)
      if agent = "" ∨ domain = "" then .error (.emptyField rowNum)
      else .ok (some (domain, agent, date))

/-- The data-row loop itself, numbering physical lines from 2. -/
def availDataLoop : Nat → List String → Except PyError (List (String × String × String))
  | _, [] => .ok []
  | rowNum, line :: rest =>
    match processAvailLine rowNum line with
    | .error e => .error e
    | .ok none => availDataLoop (rowNum + 1) rest
    | .ok (some r) => (availDataLoop (rowNum + 1) rest).map (r :: ·)

/-- Model of `validate_availability_csv` (lines 186-276).  A missing path fails,
a zero-byte file returns the empty record list, otherwise the header
line is tokenized by a PLAIN comma split (`header_line.split(',')`,
line 219), each token cleaned and lower-cased, and compared against the
expected names; on success the data rows are parsed. -/
def validateAvailabilityCsv : FileInput → Except PyError (List (String × String × String))
  | .missing => .error .fileNotFound
  | .present lines =>
    if lines = [] then .ok []
    else
      let headerLine := pyStrip (lines.headD "")
      let headers := (splitComma headerLine).map cleanTok
      let normalized := headers.map fun h => lowerAscii (cleanTok h)
      if normalized = availExpectedLower then availDataLoop 2 lines.tail
      else .error (.headerMismatch headers)

/-- The line parser of Python's `csv` module (default dialect), used by
the `csv.DictReader` inside `validate_baseline_csv`: fields are
separated by commas; a field that starts with `"` is quoted — inside it
a doubled `""` denotes a literal quote and a single `"` closes the
quoted part; a `"` in the middle of an unquoted field is literal.  A
blank physical line yields the empty row (which `DictReader` skips). -/
inductive CsvMode where
  | start
  | unquoted
  | quoted

def pyCsvAux : CsvMode → List Char → List Char → List String
  | _, acc, [] => [acc.reverse.asString]
  | .start, acc, c :: rest =>
    if c == quoteChar then pyCsvAux .quoted acc rest
    else if c == ',' then acc.reverse.asString :: pyCsvAux .start [] rest
    else pyCsvAux .unquoted (c :: acc) rest
  | .unquoted, acc, c :: rest =>
    if c == ',' then acc.reverse.asString :: pyCsvAux .start [] rest
    else pyCsvAux .unquoted (c :: acc) rest
  | .quoted, acc, c :: rest =>
    if c == quoteChar then
      match rest with
      | c' :: rest' =>
        if c' == quoteChar then pyCsvAux .quoted (quoteChar :: acc) rest'
        else pyCsvAux .unquoted acc (c' :: rest')
      | [] => pyCsvAux .unquoted acc []
    else pyCsvAux .quoted (c :: acc) rest

def pyCsvParseLine (s : String) : List String :=
  if s = "" then [] else pyCsvAux .start [] s.data

/-- The row dictionary built by `csv.DictReader.__next__`:
`dict(zip(fieldnames, row))` with missing values padded by the default
`restval` of `None` (extra values go under the non-string `restkey` and
cannot shadow a string lookup).  A duplicate fieldname keeps the LAST
zipped value, as Python dict construction does. -/
def zipPad : List String → List String → List (String × Option String)
  | [], _ => []
  | f :: fs, [] => (f, none) :: zipPad fs []
  | f :: fs, v :: vs => (f, some v) :: zipPad fs vs

/-- Dictionary lookup `row[key]` on a `DictReader` row: `none` is a
`KeyError` (the key is not among the RAW fieldnames), `some none` is a
`None` value padded into a short row, `some (some v)` is a real
field value. -/
def dictGet (fieldnames row : List String) (key : String) : Option (Option String) :=
  (zipPad fieldnames row).foldl (fun acc p => if p.1 = key then some p.2 else acc) none

/-- The data-row loop of `validate_baseline_csv` (lines 169-178) as run
through `csv.DictReader`: blank rows are skipped without consuming a
row number; each row is a dictionary keyed by the RAW fieldnames, so
`row["Domain"]`/`row["Agent Name"]` raise an uncaught `KeyError` when
the raw header cell is not exactly that string (a header such as
`Domain, Agent Name` passes the stripped comparison but leaves the dict
keyed on `" Agent Name"`); a short row's padded `None` makes
`.strip()` raise an `AttributeError`; otherwise the two values are
stripped and an empty one fails with `EmptyField` naming the 1-based
row number.  `row["Domain"]` is evaluated before `row["Agent Name"]`,
as in the source. -/
def baselineDataLoop (fieldnames : List String) :
    Nat → List (List String) → Except PyError (List (String × String))
  | _, [] => .ok []
  | rowNum, row :: rest =>
    match row with
    | [] => baselineDataLoop fieldnames rowNum rest
    | x :: xs =>
      match dictGet fieldnames (x :: xs) "Domain" with
      | none => .error (.keyError "Domain")
      | some none => .error .noneAttributeError
      | some (some dv) =>
        match dictGet fieldnames (x :: xs) "Agent Name" with
        | none => .error (.keyError "Agent Name")
        | some none => .error .noneAttributeError
        | some (some av) =>
          let domain := pyStrip dv
          let agent := pyStrip av
          if domain = "" ∨ agent = "" then .error (.emptyField rowNum)
          else (baselineDataLoop fieldnames (rowNum + 1) rest).map ((domain, agent) :: ·)

/-- The expected baseline header, `BASELINE_COLUMNS`. -/
def baselineColumns : List String := ["Domain", "Agent Name"]

/-- Model of `validate_baseline_csv` (lines 132-183): missing path and zero-byte
file fail; the header row (the RAW first `csv` row) must, after each
name is stripped of whitespace then of BOM characters, equal
`["Domain", "Agent Name"]`; the data rows are then processed as
dictionaries keyed by the RAW (un-stripped) fieldnames, and an empty
result fails with `NoRecords`.  (The model treats each physical line
as one `csv` record; quoted fields spanning several lines are outside
the model.) -/
def validateBaselineCsv : FileInput → Except PyError (List (String × String))
  | .missing => .error .fileNotFound
  | .present lines =>
    if lines = [] then .error .emptyFile
    else
      let rows := lines.map pyCsvParseLine
      let fieldnames := rows.headD []
      let normalized := fieldnames.map fun h => stripBom (pyStrip h)
      if normalized = baselineColumns then
        match baselineDataLoop fieldnames 2 rows.tail with
        | .error e => .error e
        | .ok [] => .error .noRecords
        | .ok records => .ok records
      else .error (.headerMismatch normalized)

/-! ## Date resolution (`parse_available_date`, lines 378-420)

`datetime.strptime` is modelled format by format.  Each numeric
directive follows the regular expression CPython's `_strptime` compiles
for it (`%Y` is exactly four digits; `%d`, `%m`, `%H`, `%M`, `%S` are
one or two digits within the directive's range; `%f` is one to six
digits, right-padded to microseconds), a whitespace run in the format
matches one or more whitespace characters of the input, month names are
matched case-insensitively, the whole input must be consumed, and the
resulting field values must form a constructible `datetime` (day within
the month, seconds at most 59, year at least 1). -/

structure DateTime where
  year : Nat
  month : Nat
  day : Nat
  hour : Nat
  minute : Nat
  second : Nat
  microsecond : Nat
deriving DecidableEq, Repr

def isLeapYear (y : Nat) : Bool :=
  (y % 4 == 0 && y % 100 != 0) || y % 400 == 0

def daysInMonth (y m : Nat) : Nat :=
  if m = 2 then (if isLeapYear y then 29 else 28)
  else if m = 4 ∨ m = 6 ∨ m = 9 ∨ m = 11 then 30
  else 31

/-- Days in year `y` that precede month `m`. -/
def cumDays (y m : Nat) : Nat :=
  (List.range (m - 1)).foldl (fun acc i => acc + daysInMonth y (i + 1)) 0

/-- Days since 0001-01-01 in the proleptic Gregorian calendar (the
calendar of Python's naive `datetime`). -/
def daysSinceEpoch (y m d : Nat) : Nat :=
  365 * (y - 1) + (y - 1) / 4 - (y - 1) / 100 + (y - 1) / 400 + cumDays y m + (d - 1)

/-- The microsecond count of a `datetime`.  Comparison of naive Python
`datetime` values and `timedelta` arithmetic on them coincide with
plain arithmetic on this count. -/
def DateTime.toMicros (t : DateTime) : Nat :=
  (((daysSinceEpoch t.year t.month t.day * 24 + t.hour) * 60 + t.minute) * 60 + t.second)
    * 1000000 + t.microsecond

def isDigit (c : Char) : Bool := '0' ≤ c && c ≤ '9'

def digitVal (c : Char) : Nat := c.toNat - '0'.toNat

/-- A numeric directive matching one or two digits: the two-digit form
is taken when the next two characters are digits whose value satisfies
`ok2`, else a single digit whose value satisfies `ok1` is taken.  (The
corresponding regex alternations never need further backtracking in the
eight formats at hand, because a numeric directive is always followed
by a non-digit literal, whitespace or the end of the input.) -/
def pNum2or1 (ok2 ok1 : Nat → Bool) : List Char → Option (Nat × List Char)
  | c1 :: c2 :: rest =>
    if isDigit c1 && isDigit c2 && ok2 (digitVal c1 * 10 + digitVal c2) then
      some (digitVal c1 * 10 + digitVal c2, rest)
    else if isDigit c1 && ok1 (digitVal c1) then some (digitVal c1, c2 :: rest)
    else none
  | [c1] => if isDigit c1 && ok1 (digitVal c1) then some (digitVal c1, []) else none
  | [] => none

/-- Directive `%Y`: exactly four digits. -/
def pYear : List Char → Option (Nat × List Char)
  | c1 :: c2 :: c3 :: c4 :: rest =>
    if isDigit c1 && isDigit c2 && isDigit c3 && isDigit c4 then
      some (((digitVal c1 * 10 + digitVal c2) * 10 + digitVal c3) * 10 + digitVal c4, rest)
    else none
  | _ => none

def pMonthNum : List Char → Option (Nat × List Char) :=
  pNum2or1 (fun v => 1 ≤ v && v ≤ 12) (fun v => 1 ≤ v)

def pDay : List Char → Option (Nat × List Char) :=
  pNum2or1 (fun v => 1 ≤ v && v ≤ 31) (fun v => 1 ≤ v)

def pHour : List Char → Option (Nat × List Char) :=
  pNum2or1 (fun v => v ≤ 23) (fun _ => true)

def pMinute : List Char → Option (Nat × List Char) :=
  pNum2or1 (fun v => v ≤ 59) (fun _ => true)

def pSecond : List Char → Option (Nat × List Char) :=
  pNum2or1 (fun v => v ≤ 61) (fun _ => true)

/-- Greedy digit accumulation for `%f`: `k` digits consumed so far,
value `v`; on stopping, the value is right-padded to six digits. -/
def pFracGo (k v : Nat) : List Char → Nat × List Char
  | [] => (v * 10 ^ (6 - k), [])
  | c :: rest =>
    if k < 6 && isDigit c then pFracGo (k + 1) (v * 10 + digitVal c) rest
    else (v * 10 ^ (6 - k), c :: rest)

/-- Directive `%f`: one to six digits, greedily, right-padded to microseconds. -/
def pFrac : List Char → Option (Nat × List Char)
  | c :: rest => if isDigit c then some (pFracGo 1 (digitVal c) rest) else none
  | [] => none

def pLit (l : Char) : List Char → Option (List Char)
  | c :: rest => if c == l then some rest else none
  | [] => none

/-- A whitespace run in the format: one or more whitespace characters. -/
def pWs : List Char → Option (List Char)
  | c :: rest => if isPyWs c then some (rest.dropWhile isPyWs) else none
  | [] => none

def monthAbbrevs : List String :=
  ["jan", "feb", "mar", "apr", "may", "jun", "jul", "aug", "sep", "oct", "nov", "dec"]

def monthFulls : List String :=
  ["january", "february", "march", "april", "may", "june", "july", "august",
    "september", "october", "november", "december"]

/-- Scan a name list for one whose characters are a prefix of the
lower-cased input; `i` is the 1-based index of the first candidate. -/
def pNameGo (low cs : List Char) (i : Nat) : List String → Option (Nat × List Char)
  | [] => none
  | n :: rest =>
    if n.data.isPrefixOf low then some (i, cs.drop n.data.length)
    else pNameGo low cs (i + 1) rest

/-- Match one of the given month names (case-insensitively) as a prefix
of the input, returning its 1-based index. -/
def pName (names : List String) (cs : List Char) : Option (Nat × List Char) :=
  pNameGo (cs.map Char.toLower) cs 1 names

/-- The `datetime` constructor's validation: `strptime` raises
`ValueError` (caught by the source's loop) when the matched fields do
not form a valid `datetime`. -/
def finishDT (y mo d h mi s us : Nat) : Option DateTime :=
  if 1 ≤ y ∧ 1 ≤ d ∧ d ≤ daysInMonth y mo ∧ s ≤ 59 then
    some ⟨y, mo, d, h, mi, s, us⟩
  else none

/-- Format `"%Y-%m-%d %H:%M:%S"`. -/
def pFmt1 (cs : List Char) : Option DateTime := do
  let (y, cs) ← pYear cs
  let cs ← pLit '-' cs
  let (mo, cs) ← pMonthNum cs
  let cs ← pLit '-' cs
  let (d, cs) ← pDay cs
  let cs ← pWs cs
  let (h, cs) ← pHour cs
  let cs ← pLit ':' cs
  let (mi, cs) ← pMinute cs
  let cs ← pLit ':' cs
  let (s, cs) ← pSecond cs
  if cs.isEmpty then finishDT y mo d h mi s 0 else none

/-- The shared tail `@ %H:%M:%S` of the month-name formats, optionally
followed by `.%f`, then end of input. -/
def pClockTail (withFrac : Bool) (y mo d : Nat) (cs : List Char) : Option DateTime := do
  let cs ← pWs cs
  let cs ← pLit '@' cs
  let cs ← pWs cs
  let (h, cs) ← pHour cs
  let cs ← pLit ':' cs
  let (mi, cs) ← pMinute cs
  let cs ← pLit ':' cs
  let (s, cs) ← pSecond cs
  if withFrac then do
    let cs ← pLit '.' cs
    let (us, cs) ← pFrac cs
    if cs.isEmpty then finishDT y mo d h mi s us else none
  else
    if cs.isEmpty then finishDT y mo d h mi s 0 else none

/-- The shared head `<month-name> %d, %Y` of the month-name formats. -/
def pNameHead (names : List String) (withFrac : Bool) (cs : List Char) : Option DateTime := do
  let (mo, cs) ← pName names cs
  let cs ← pWs cs
  let (d, cs) ← pDay cs
  let cs ← pLit ',' cs
  let cs ← pWs cs
  let (y, cs) ← pYear cs
  pClockTail withFrac y mo d cs

/-- Format `"%b %d, %Y @ %H:%M:%S.%f"`. -/
def pFmt2 : List Char → Option DateTime := pNameHead monthAbbrevs true

/-- Format `"%b %d, %Y @ %H:%M:%S"`. -/
def pFmt3 : List Char → Option DateTime := pNameHead monthAbbrevs false

/-- Format `"%B %d, %Y @ %H:%M:%S.%f"`. -/
def pFmt4 : List Char → Option DateTime := pNameHead monthFulls true

/-- Format `"%B %d, %Y @ %H:%M:%S"`. -/
def pFmt5 : List Char → Option DateTime := pNameHead monthFulls false

/-- Format `"%d-%m-%Y %H:%M:%S"`. -/
def pFmt6 (cs : List Char) : Option DateTime := do
  let (d, cs) ← pDay cs
  let cs ← pLit '-' cs
  let (mo, cs) ← pMonthNum cs
  let cs ← pLit '-' cs
  let (y, cs) ← pYear cs
  let cs ← pWs cs
  let (h, cs) ← pHour cs
  let cs ← pLit ':' cs
  let (mi, cs) ← pMinute cs
  let cs ← pLit ':' cs
  let (s, cs) ← pSecond cs
  if cs.isEmpty then finishDT y mo d h mi s 0 else none

/-- Format `"%m/%d/%Y %H:%M:%S"`. -/
def pFmt7 (cs : List Char) : Option DateTime := do
  let (mo, cs) ← pMonthNum cs
  let cs ← pLit '/' cs
  let (d, cs) ← pDay cs
  let cs ← pLit '/' cs
  let (y, cs) ← pYear cs
  let cs ← pWs cs
  let (h, cs) ← pHour cs
  let cs ← pLit ':' cs
  let (mi, cs) ← pMinute cs
  let cs ← pLit ':' cs
  let (s, cs) ← pSecond cs
  if cs.isEmpty then finishDT y mo d h mi s 0 else none

/-- Format `"%Y/%m/%d %H:%M:%S"`. -/
def pFmt8 (cs : List Char) : Option DateTime := do
  let (y, cs) ← pYear cs
  let cs ← pLit '/' cs
  let (mo, cs) ← pMonthNum cs
  let cs ← pLit '/' cs
  let (d, cs) ← pDay cs
  let cs ← pWs cs
  let (h, cs) ← pHour cs
  let cs ← pLit ':' cs
  let (mi, cs) ← pMinute cs
  let cs ← pLit ':' cs
  let (s, cs) ← pSecond cs
  if cs.isEmpty then finishDT y mo d h mi s 0 else none

/-- The `date_formats` list of `parse_available_date`, in source
order. -/
def dateFormats : List (List Char → Option DateTime) :=
  [pFmt1, pFmt2, pFmt3, pFmt4, pFmt5, pFmt6, pFmt7, pFmt8]

/-- Return the result of the first format that matches. -/
def firstMatch : List (List Char → Option DateTime) → List Char → Option DateTime
  | [], _ => none
  | f :: fs, cs =>
    match f cs with
    | some d => some d
    | none => firstMatch fs cs

/-- Model of `parse_available_date` (lines 378-420): strip the input, try the
eight formats in order, and otherwise fail with the invalid-date error
whose message interpolates the STRIPPED string (`date_str` is
reassigned to its stripped form on line 408 before the raise). -/
def parseAvailableDate (s : String) : Except PyError DateTime :=
  let t := pyStrip s
  match firstMatch dateFormats t.data with
  | some d => .ok d
  | none => .error (.invalidDateFormat t)

/-! ## Availability index and classification -/

/-- Composite index key `(agent_name, domain)`. -/
abbrev AKey := String × String

/-- The dictionary update of `get_availability_records` (lines
483-486): insert the parsed date under `(agent_name, domain)`, keeping
the existing entry unless the new date is strictly greater. -/
def updateMap (m : AKey → Option DateTime) (k : AKey) (t : DateTime) :
    AKey → Option DateTime :=
  fun k' =>
    if k' = k then
      match m k with
      | none => some t
      | some old => if old.toMicros < t.toMicros then some t else some old
    else m k'

/-- The record loop of `get_availability_records` (lines 478-488):
resolve each date string in input order, aborting on the first
`InvalidDateFormat`, and fold the updates into the index. -/
def buildMapAux (m : AKey → Option DateTime) :
    List (String × String × String) → Except PyError (AKey → Option DateTime)
  | [] => .ok m
  | (domain, agent, ds) :: rest =>
    match parseAvailableDate ds with
    | .error e => .error e
    | .ok t => buildMapAux (updateMap m (agent, domain) t) rest

/-- Model of `get_availability_records` (lines 466-488). -/
def getAvailabilityRecords (file : FileInput) :
    Except PyError (AKey → Option DateTime) :=
  match validateAvailabilityCsv file with
  | .error e => .error e
  | .ok recs => buildMapAux (fun _ => none) recs

/-- Model of `is_within_last_24_hours` (lines 423-435).  The source reads
`datetime.now()` internally; the shallow embedding surfaces that
ambient clock value as the explicit argument `now`.  The Python
comparison `available_date >= now - timedelta(hours=24)` on naive
datetimes is exactly this inequality of microsecond counts. -/
def isWithinLast24Hours (now t : DateTime) : Bool :=
  t.toMicros + 86400000000 ≥ now.toMicros

/-- The per-domain result record built by `calculate_availability`. -/
structure DomainResult where
  total : Nat
  available : Finset String
  not_available : Finset String
  last_available_dates : String → Option DateTime

/-- The availability test applied to one agent of a domain: present in
the index and within the last 24 hours of the ambient clock. -/
def availPred (now : DateTime) (amap : AKey → Option DateTime)
    (domain agent : String) : Bool :=
  match amap (agent, domain) with
  | none => false
  | some t => isWithinLast24Hours now t

/-- The inner loop of `calculate_availability` (lines 520-546) for one
domain: `total` is the baseline set's size; an agent goes to
`available` when the index holds a fresh timestamp for it, otherwise to
`not_available`; `last_available_dates` has an entry exactly for the
baseline agents present in the index. -/
def calcDomain (now : DateTime) (amap : AKey → Option DateTime)
    (domain : String) (agents : Finset String) : DomainResult where
  total := agents.card
  available := agents.filter fun a => availPred now amap domain a = true
  not_available := agents.filter fun a => availPred now amap domain a = false
  last_available_dates := fun a => if a ∈ agents then amap (a, domain) else none

/-- Model of `calculate_availability` (lines 491-548), over the item list of the
baseline mapping. -/
def calculateAvailability (now : DateTime) (baseline : List (String × Finset String))
    (amap : AKey → Option DateTime) : List (String × DomainResult) :=
  baseline.map fun p => (p.1, calcDomain now amap p.1 p.2)

/-! ## Auxiliary definitions used by the statements -/

/-- Modelled from the spec's words (§4.1): the availability HEADER line
"is tokenized by a custom comma-splitter that is quote-aware", then
each column is "stripped of surrounding whitespace, BOM, and
single/double quotes, then lower-cased".  This definition exists only
to be compared with the code's actual header handling, which uses a
plain `header_line.split(',')`. -/
def specHeaderNormalized (headerLine : String) : List String :=
  (splitCsvLine (pyStrip headerLine)).map fun h => lowerAscii (cleanTok h)

/-- The merge of two optional maxima. -/
def optMax : Option Nat → Option Nat → Option Nat
  | none, y => y
  | some a, none => some a
  | some a, some b => some (max a b)

/-- The maximum of a list of naturals, `none` on the empty list. -/
def natMax? : List Nat → Option Nat
  | [] => none
  | v :: rest => optMax (some v) (natMax? rest)

/-- The microsecond counts of all timestamps an availability record
list resolves for a given `(agent, domain)` key. -/
def microsFor (recs : List (String × String × String)) (k : AKey) : List Nat :=
  recs.filterMap fun r =>
    if (r.2.1, r.1) = k then
      match parseAvailableDate r.2.2 with
      | .ok t => some t.toMicros
      | .error _ => none
    else none

/-- The always-failing format, used as a list-indexing default. -/
def noFmt : List Char → Option DateTime := fun _ => none

/-! ## Theorems -/

/-- C8: a zero-byte availability file is a valid, non-error case
yielding the empty record sequence, while a zero-byte baseline file is
the `EmptyFile` error.  (In the model a file's content is its
`readlines()` output, so a zero-byte file is exactly `present []`.) -/
theorem zero_byte_availability_ok_baseline_errors :
    validateAvailabilityCsv (.present []) = .ok [] ∧
    validateBaselineCsv (.present []) = .error .emptyFile :=
  ⟨rfl, rfl⟩

/-- C10: a data row whose date portion is empty after trimming (the
line `d,a,`) passes `validate_availability_csv` — which checks only
domain and agent name — with an empty date string, and the failure
surfaces only in `get_availability_records`, as `InvalidDateFormat`
raised by `parse_available_date` on the empty string. -/
theorem empty_date_passes_validation_fails_at_parse :
    (∀ rowNum, processAvailLine rowNum "d,a," = .ok (some ("d", "a", ""))) ∧
    validateAvailabilityCsv (.present ["Domain,Agent Name,Last Available Date", "d,a,"]) =
      .ok [("d", "a", "")] ∧
    parseAvailableDate "" = .error (.invalidDateFormat "") ∧
    getAvailabilityRecords (.present ["Domain,Agent Name,Last Available Date", "d,a,"]) =
      .error (.invalidDateFormat "") :=
  ⟨fun _ => rfl, rfl, rfl, rfl⟩

/-- C7 counterexample: the availability header is NOT tokenized by the
quote-aware comma splitter.  On the header line
`Domain",Agent Name,"Last Available Date` the quote-aware tokenization
the claim describes yields a single field, so the claimed validator
would reject it; the code's plain `split(',')` tokenization yields the
three expected columns once quotes are stripped, and the file is
accepted. -/
theorem header_not_quote_aware_counterexample :
    validateAvailabilityCsv
        (.present ["Domain\",Agent Name,\"Last Available Date"]) = .ok [] ∧
    specHeaderNormalized "Domain\",Agent Name,\"Last Available Date" ≠ availExpectedLower :=
  ⟨rfl, by decide⟩

/-- C6 counterexample: on input `" x "` (no pattern matches),
`parse_available_date` raises `InvalidDateFormat` carrying the
whitespace-STRIPPED string `"x"`, not the original `" x "`: line 408
reassigns `date_str = date_str.strip()` before the raise. -/
theorem invalid_date_error_carries_stripped_string :
    parseAvailableDate " x " = .error (.invalidDateFormat "x") ∧
    (" x " : String) ≠ "x" :=
  ⟨rfl, by decide⟩

/-- C9 counterexample: a baseline data row with a single field (file
`Domain,Agent Name` then `X`) does not fail with `EmptyField`;
`csv.DictReader` pads the missing `Agent Name` with `None`, and
`row["Agent Name"].strip()` raises an unclassified `AttributeError`. -/
theorem short_baseline_row_unclassified_fault :
    validateBaselineCsv (.present ["Domain,Agent Name", "X"]) =
      .error .noneAttributeError ∧
    PyError.noneAttributeError ≠ .emptyField 2 :=
  ⟨rfl, by decide⟩

/-- C4 counterexample: the classification outcome is not determined by
the baseline sets and the availability index alone — on identical
baseline `{d: {a}}` and index `{(a, d) ↦ 2026-01-31 12:00:00}`, a run
with ambient clock 2026-01-31 12:00:00 and a run with ambient clock
2026-02-05 12:00:00 classify `a` differently, because
`is_within_last_24_hours` reads `datetime.now()` internally instead of
receiving `now` as an explicit input. -/
theorem classification_depends_on_ambient_clock :
    (calcDomain ⟨2026, 1, 31, 12, 0, 0, 0⟩
        (fun k => if k = ("a", "d") then some ⟨2026, 1, 31, 12, 0, 0, 0⟩ else none)
        "d" {"a"}).available ≠
    (calcDomain ⟨2026, 2, 5, 12, 0, 0, 0⟩
        (fun k => if k = ("a", "d") then some ⟨2026, 1, 31, 12, 0, 0, 0⟩ else none)
        "d" {"a"}).available := by
  decide

/-- C1: for every ambient clock value, baseline mapping and
availability index, each domain's result places every baseline agent of
that domain in exactly one of `available`/`not_available` (disjoint
sets whose union is the baseline set), and `total` equals
`|available| + |not_available|`. -/
theorem classification_partitions_baseline (now : DateTime)
    (baseline : List (String × Finset String)) (amap : AKey → Option DateTime)
    (domain : String) (agents : Finset String)
    (hmem : (domain, agents) ∈ baseline) :
    (domain, calcDomain now amap domain agents) ∈ calculateAvailability now baseline amap ∧
    (calcDomain now amap domain agents).available ∪
      (calcDomain now amap domain agents).not_available = agents ∧
    Disjoint (calcDomain now amap domain agents).available
      (calcDomain now amap domain agents).not_available ∧
    (calcDomain now amap domain agents).total =
      (calcDomain now amap domain agents).available.card +
        (calcDomain now amap domain agents).not_available.card := by
  have hunion : (calcDomain now amap domain agents).available ∪
      (calcDomain now amap domain agents).not_available = agents := by
    ext a
    simp only [calcDomain, Finset.mem_union, Finset.mem_filter]
    cases h : availPred now amap domain a <;> simp [h]
  have hdisj : Disjoint (calcDomain now amap domain agents).available
      (calcDomain now amap domain agents).not_available := by
    rw [Finset.disjoint_left]
    intro a h1 h2
    simp only [calcDomain, Finset.mem_filter] at h1 h2
    rw [h1.2] at h2
    exact absurd h2.2 (by simp)
  refine ⟨List.mem_map.mpr ⟨(domain, agents), hmem, rfl⟩, hunion, hdisj, ?_⟩
  have := Finset.card_union_of_disjoint hdisj
  rw [hunion] at this
  exact this

/-- Witness for C1 at a concrete baseline, index and clock. -/
theorem classification_partitions_baseline_witness :
    (("d", ({"a", "b"} : Finset String)) ∈ [("d", ({"a", "b"} : Finset String))]) ∧
    (("d", calcDomain ⟨2026, 2, 1, 12, 0, 0, 0⟩ (fun _ => none) "d" {"a", "b"}) ∈
      calculateAvailability ⟨2026, 2, 1, 12, 0, 0, 0⟩
        [("d", ({"a", "b"} : Finset String))] (fun _ => none) ∧
    (calcDomain ⟨2026, 2, 1, 12, 0, 0, 0⟩ (fun _ => none) "d" {"a", "b"}).available ∪
      (calcDomain ⟨2026, 2, 1, 12, 0, 0, 0⟩ (fun _ => none) "d" {"a", "b"}).not_available =
        {"a", "b"} ∧
    Disjoint (calcDomain ⟨2026, 2, 1, 12, 0, 0, 0⟩ (fun _ => none) "d" {"a", "b"}).available
      (calcDomain ⟨2026, 2, 1, 12, 0, 0, 0⟩ (fun _ => none) "d" {"a", "b"}).not_available ∧
    (calcDomain ⟨2026, 2, 1, 12, 0, 0, 0⟩ (fun _ => none) "d" {"a", "b"}).total =
      (calcDomain ⟨2026, 2, 1, 12, 0, 0, 0⟩ (fun _ => none) "d" {"a", "b"}).available.card +
        (calcDomain ⟨2026, 2, 1, 12, 0, 0, 0⟩ (fun _ => none) "d" {"a", "b"}).not_available.card) :=
  ⟨by simp,
    classification_partitions_baseline ⟨2026, 2, 1, 12, 0, 0, 0⟩
      [("d", ({"a", "b"} : Finset String))] (fun _ => none) "d" {"a", "b"} (by simp)⟩

/-- C2: for every baseline agent present in the availability index with
timestamp `t`, the agent is classified `available` iff
`t ≥ now - 24h` (inclusive lower bound, stated on microsecond counts),
and its `last_seen` entry is exactly `t`. -/
theorem freshness_boundary_inclusive (now : DateTime) (amap : AKey → Option DateTime)
    (domain : String) (agents : Finset String) (a : String) (t : DateTime)
    (ha : a ∈ agents) (ht : amap (a, domain) = some t) :
    (a ∈ (calcDomain now amap domain agents).available ↔
      (t.toMicros : Int) ≥ (now.toMicros : Int) - 86400000000) ∧
    (calcDomain now amap domain agents).last_available_dates a = some t := by
  constructor
  · simp only [calcDomain, Finset.mem_filter, ha, true_and]
    simp only [availPred, ht, isWithinLast24Hours, ge_iff_le, decide_eq_true_eq]
    omega
  · simp [calcDomain, ha, ht]

/-- Witness for C2 at the exact boundary: the indexed timestamp is
exactly 24 hours before the clock and the agent is `available`. -/
theorem freshness_boundary_inclusive_witness :
    ("a" ∈ ({"a"} : Finset String)) ∧
    ((fun k => if k = ("a", "d") then some (⟨2026, 1, 31, 12, 0, 0, 0⟩ : DateTime) else none)
      ("a", "d") = some ⟨2026, 1, 31, 12, 0, 0, 0⟩) ∧
    ((⟨2026, 1, 31, 12, 0, 0, 0⟩ : DateTime).toMicros : Int) =
      ((⟨2026, 2, 1, 12, 0, 0, 0⟩ : DateTime).toMicros : Int) - 86400000000 ∧
    "a" ∈ (calcDomain ⟨2026, 2, 1, 12, 0, 0, 0⟩
      (fun k => if k = ("a", "d") then some ⟨2026, 1, 31, 12, 0, 0, 0⟩ else none)
      "d" {"a"}).available :=
  ⟨by simp, by simp, by decide,
    (freshness_boundary_inclusive ⟨2026, 2, 1, 12, 0, 0, 0⟩
      (fun k => if k = ("a", "d") then some ⟨2026, 1, 31, 12, 0, 0, 0⟩ else none)
      "d" {"a"} "a" ⟨2026, 1, 31, 12, 0, 0, 0⟩ (by simp) (by simp)).1.mpr (by decide)⟩

/-- C4 amended: once the ambient clock value that
`is_within_last_24_hours` reads internally is fixed as an explicit
value `now`, classification is a deterministic function of (baseline
set, availability index, `now`): membership in each result set and the
`last_seen` entry are fully characterized by those three inputs. -/
theorem classification_function_of_inputs (now : DateTime)
    (amap : AKey → Option DateTime) (domain : String) (agents : Finset String)
    (a : String) :
    (a ∈ (calcDomain now amap domain agents).available ↔
      a ∈ agents ∧ ∃ t, amap (a, domain) = some t ∧ isWithinLast24Hours now t = true) ∧
    (a ∈ (calcDomain now amap domain agents).not_available ↔
      a ∈ agents ∧ ∀ t, amap (a, domain) = some t → isWithinLast24Hours now t = false) ∧
    (calcDomain now amap domain agents).last_available_dates a =
      (if a ∈ agents then amap (a, domain) else none) := by
  refine ⟨?_, ?_, rfl⟩
  · simp only [calcDomain, Finset.mem_filter, and_congr_right_iff]
    intro _
    cases h : amap (a, domain) <;> simp [availPred, h]
  · simp only [calcDomain, Finset.mem_filter, and_congr_right_iff]
    intro _
    cases h : amap (a, domain) <;> simp [availPred, h]

/-- C5: every availability data line is tokenized by the quote-aware
comma splitter; the first field (cleaned of whitespace and surrounding
quotes) becomes the domain, the second the agent name, and the cleaned
fields from index 2 onward are rejoined with the literal separator
`", "` into the date string. -/
theorem avail_line_quote_aware_fields (line : String) (parts : List String) (rowNum : Nat)
    (hsplit : splitCsvLine (pyStrip line) = parts)
    (hlen : 3 ≤ parts.length)
    (hdom : cleanData (parts.headD "") ≠ "")
    (hag : cleanData (parts.getD 1 "") ≠ "") :
    processAvailLine rowNum line =
      .ok (some (cleanData (parts.headD ""), cleanData (parts.getD 1 ""),
        String.intercalate ", " ((parts.drop 2).map cleanData))) := by
  have hne : pyStrip line ≠ "" := by
    intro h
    rw [h] at hsplit
    have hparts : parts = [""] := hsplit.symm.trans (by decide)
    rw [hparts] at hlen
    simp at hlen
  simp only [processAvailLine, hsplit]
  rw [if_neg hne, if_neg (by omega), if_neg ?_]
  intro h
  exact h.elim hag hdom

/-- Witness for C5: the line
`"HOST01","DomainX","Jan 31, 2026 @ 12:38:00.504"` splits into exactly
three logical fields, the quoted comma not terminating a field, and the
date field is reconstructed verbatim. -/
theorem avail_line_quote_aware_fields_witness :
    splitCsvLine (pyStrip "\"HOST01\",\"DomainX\",\"Jan 31, 2026 @ 12:38:00.504\"") =
      ["HOST01", "DomainX", "Jan 31, 2026 @ 12:38:00.504"] ∧
    processAvailLine 2 "\"HOST01\",\"DomainX\",\"Jan 31, 2026 @ 12:38:00.504\"" =
      .ok (some ("HOST01", "DomainX", "Jan 31, 2026 @ 12:38:00.504")) :=
  ⟨by decide,
    (avail_line_quote_aware_fields "\"HOST01\",\"DomainX\",\"Jan 31, 2026 @ 12:38:00.504\""
      ["HOST01", "DomainX", "Jan 31, 2026 @ 12:38:00.504"] 2
      (by decide) (by decide) (by decide) (by decide)).trans rfl⟩

/-- C7 amended: the availability header line is tokenized by a PLAIN
comma split (`header_line.split(',')`), not by the quote-aware
splitter; each token is cleaned and lower-cased before the comparison
with `["domain", "agent name", "last available date"]`, a mismatch
failing with `HeaderMismatch` carrying the once-cleaned tokens. -/
theorem header_plain_comma_split (hd : String) (tl : List String) :
    ((splitComma (pyStrip hd)).map
        (fun h => lowerAscii (cleanTok (cleanTok h))) = availExpectedLower →
      validateAvailabilityCsv (.present (hd :: tl)) = availDataLoop 2 tl) ∧
    ((splitComma (pyStrip hd)).map
        (fun h => lowerAscii (cleanTok (cleanTok h))) ≠ availExpectedLower →
      validateAvailabilityCsv (.present (hd :: tl)) =
        .error (.headerMismatch ((splitComma (pyStrip hd)).map cleanTok))) := by
  have hbody : validateAvailabilityCsv (.present (hd :: tl)) =
      if ((splitComma (pyStrip hd)).map
          (fun h => lowerAscii (cleanTok (cleanTok h))) = availExpectedLower) then
        availDataLoop 2 tl
      else .error (.headerMismatch ((splitComma (pyStrip hd)).map cleanTok)) := by
    simp only [validateAvailabilityCsv, List.headD_cons, List.tail_cons, List.map_map]
    rw [if_neg (by simp)]
    rfl
  constructor <;> intro h
  · rw [hbody, if_pos h]
  · rw [hbody, if_neg h]

/-- Witness for the C7 amended theorem: a well-formed header is
accepted through the plain comma split. -/
theorem header_plain_comma_split_witness :
    (splitComma (pyStrip "Domain,Agent Name,Last Available Date")).map
        (fun h => lowerAscii (cleanTok (cleanTok h))) = availExpectedLower ∧
    validateAvailabilityCsv
        (.present ["Domain,Agent Name,Last Available Date"]) = .ok [] :=
  ⟨by decide,
    ((header_plain_comma_split "Domain,Agent Name,Last Available Date" []).1
      (by decide)).trans rfl⟩

theorem optMax_none_right (x : Option Nat) : optMax x none = x := by
  cases x <;> rfl

theorem optMax_comm (x y : Option Nat) : optMax x y = optMax y x := by
  cases x <;> cases y <;> simp [optMax, Nat.max_comm]

theorem optMax_assoc (x y z : Option Nat) :
    optMax (optMax x y) z = optMax x (optMax y z) := by
  cases x <;> cases y <;> cases z <;> simp [optMax, Nat.max_assoc]

/-- The index-building fold keeps, under every key, the maximum of the
accumulator's entry and all resolved timestamps of the processed
records (stated on microsecond counts). -/
theorem buildMapAux_micros (recs : List (String × String × String)) :
    ∀ (m₀ m : AKey → Option DateTime), buildMapAux m₀ recs = .ok m →
    ∀ k, (m k).map DateTime.toMicros =
      optMax ((m₀ k).map DateTime.toMicros) (natMax? (microsFor recs k)) := by
  induction recs with
  | nil =>
    intro m₀ m h k
    have hm : m₀ = m := by simpa [buildMapAux] using h
    rw [← hm]
    simp [microsFor, natMax?, optMax_none_right]
  | cons r rest ih =>
    obtain ⟨d, a, ds⟩ := r
    intro m₀ m h k
    cases hp : parseAvailableDate ds with
    | error e => simp [buildMapAux, hp] at h
    | ok t =>
      simp only [buildMapAux, hp] at h
      have hstep := ih (updateMap m₀ (a, d) t) m h k
      have hmf : microsFor ((d, a, ds) :: rest) k =
          if (a, d) = k then t.toMicros :: microsFor rest k else microsFor rest k := by
        simp only [microsFor, List.filterMap_cons]
        by_cases hk : (a, d) = k <;> simp [hk, hp]
      by_cases hk : (a, d) = k
      · have hup : ((updateMap m₀ (a, d) t) k).map DateTime.toMicros =
            optMax (some t.toMicros) ((m₀ k).map DateTime.toMicros) := by
          simp only [updateMap, if_pos hk.symm, ← hk]
          cases hm : m₀ (a, d) with
          | none => simp [optMax]
          | some old =>
            by_cases hlt : old.toMicros < t.toMicros
            · simp [hlt, optMax, Nat.max_eq_left (Nat.le_of_lt hlt)]
            · simp [hlt, optMax, Nat.max_eq_right (Nat.le_of_not_lt hlt)]
        rw [hmf, if_pos hk, hstep, hup]
        show optMax (optMax (some t.toMicros) ((m₀ k).map DateTime.toMicros))
            (natMax? (microsFor rest k)) =
          optMax ((m₀ k).map DateTime.toMicros)
            (optMax (some t.toMicros) (natMax? (microsFor rest k)))
        rw [optMax_comm (some t.toMicros) ((m₀ k).map DateTime.toMicros), optMax_assoc]
      · have hne : ¬k = (a, d) := fun he => hk he.symm
        have hup : (updateMap m₀ (a, d) t) k = m₀ k := by
          simp only [updateMap]
          rw [if_neg hne]
        rw [hmf, if_neg hk, hstep, hup]

/-- The list maximum `natMax?` is invariant under permutation. -/
theorem natMax?_perm {l l' : List Nat} (h : l.Perm l') : natMax? l = natMax? l' := by
  induction h with
  | nil => rfl
  | cons x _ ih => simp only [natMax?, ih]
  | swap x y l =>
    show optMax (some y) (optMax (some x) (natMax? l)) =
      optMax (some x) (optMax (some y) (natMax? l))
    rw [← optMax_assoc, ← optMax_assoc, optMax_comm (some y) (some x)]
  | trans _ _ ih1 ih2 => exact ih1.trans ih2

/-- C3: the availability index maps every key to the MAXIMUM of all
timestamps resolved for that key (not the first or last in input
order), so the index is independent of the order in which
duplicate-key rows appear: any permutation of the raw records yields
the same entry under every key. -/
theorem availability_index_keeps_max (recs recs' : List (String × String × String))
    (m m' : AKey → Option DateTime) (k : AKey)
    (hperm : recs.Perm recs')
    (h : buildMapAux (fun _ => none) recs = .ok m)
    (h' : buildMapAux (fun _ => none) recs' = .ok m') :
    (m k).map DateTime.toMicros = natMax? (microsFor recs k) ∧
    (m k).map DateTime.toMicros = (m' k).map DateTime.toMicros := by
  have h1 := buildMapAux_micros recs (fun _ => none) m h k
  have h2 := buildMapAux_micros recs' (fun _ => none) m' h' k
  simp only [Option.map_none'] at h1 h2
  have hmax : natMax? (microsFor recs k) = natMax? (microsFor recs' k) :=
    natMax?_perm (hperm.filterMap _)
  exact ⟨h1, h1.trans (hmax.trans h2.symm)⟩

/-- Witness for C3: three duplicate-key rows whose maximum timestamp is
the one in the MIDDLE of the input order; the reversed input yields the
same index entry. -/
theorem availability_index_keeps_max_witness :
    ([("d", "a", "2026-01-31 10:00:00"), ("d", "a", "2026-01-31 12:00:00"),
        ("d", "a", "2026-01-31 11:00:00")].Perm
      [("d", "a", "2026-01-31 11:00:00"), ("d", "a", "2026-01-31 12:00:00"),
        ("d", "a", "2026-01-31 10:00:00")]) ∧
    buildMapAux (fun _ => none)
        [("d", "a", "2026-01-31 10:00:00"), ("d", "a", "2026-01-31 12:00:00"),
          ("d", "a", "2026-01-31 11:00:00")] =
      .ok (updateMap (updateMap (updateMap (fun _ => none)
        ("a", "d") ⟨2026, 1, 31, 10, 0, 0, 0⟩)
        ("a", "d") ⟨2026, 1, 31, 12, 0, 0, 0⟩)
        ("a", "d") ⟨2026, 1, 31, 11, 0, 0, 0⟩) ∧
    ((updateMap (updateMap (updateMap (fun _ => none)
        ("a", "d") ⟨2026, 1, 31, 10, 0, 0, 0⟩)
        ("a", "d") ⟨2026, 1, 31, 12, 0, 0, 0⟩)
        ("a", "d") ⟨2026, 1, 31, 11, 0, 0, 0⟩) ("a", "d")).map DateTime.toMicros =
      natMax? (microsFor
        [("d", "a", "2026-01-31 10:00:00"), ("d", "a", "2026-01-31 12:00:00"),
          ("d", "a", "2026-01-31 11:00:00")] ("a", "d")) ∧
    ((updateMap (updateMap (updateMap (fun _ => none)
        ("a", "d") ⟨2026, 1, 31, 10, 0, 0, 0⟩)
        ("a", "d") ⟨2026, 1, 31, 12, 0, 0, 0⟩)
        ("a", "d") ⟨2026, 1, 31, 11, 0, 0, 0⟩) ("a", "d")).map DateTime.toMicros =
      ((updateMap (updateMap (updateMap (fun _ => none)
        ("a", "d") ⟨2026, 1, 31, 11, 0, 0, 0⟩)
        ("a", "d") ⟨2026, 1, 31, 12, 0, 0, 0⟩)
        ("a", "d") ⟨2026, 1, 31, 10, 0, 0, 0⟩) ("a", "d")).map DateTime.toMicros :=
  ⟨by decide, rfl,
    (availability_index_keeps_max
      [("d", "a", "2026-01-31 10:00:00"), ("d", "a", "2026-01-31 12:00:00"),
        ("d", "a", "2026-01-31 11:00:00")]
      [("d", "a", "2026-01-31 11:00:00"), ("d", "a", "2026-01-31 12:00:00"),
        ("d", "a", "2026-01-31 10:00:00")]
      (updateMap (updateMap (updateMap (fun _ => none)
        ("a", "d") ⟨2026, 1, 31, 10, 0, 0, 0⟩)
        ("a", "d") ⟨2026, 1, 31, 12, 0, 0, 0⟩)
        ("a", "d") ⟨2026, 1, 31, 11, 0, 0, 0⟩)
      (updateMap (updateMap (updateMap (fun _ => none)
        ("a", "d") ⟨2026, 1, 31, 11, 0, 0, 0⟩)
        ("a", "d") ⟨2026, 1, 31, 12, 0, 0, 0⟩)
        ("a", "d") ⟨2026, 1, 31, 10, 0, 0, 0⟩)
      ("a", "d") (by decide) rfl rfl).1,
    (availability_index_keeps_max
      [("d", "a", "2026-01-31 10:00:00"), ("d", "a", "2026-01-31 12:00:00"),
        ("d", "a", "2026-01-31 11:00:00")]
      [("d", "a", "2026-01-31 11:00:00"), ("d", "a", "2026-01-31 12:00:00"),
        ("d", "a", "2026-01-31 10:00:00")]
      (updateMap (updateMap (updateMap (fun _ => none)
        ("a", "d") ⟨2026, 1, 31, 10, 0, 0, 0⟩)
        ("a", "d") ⟨2026, 1, 31, 12, 0, 0, 0⟩)
        ("a", "d") ⟨2026, 1, 31, 11, 0, 0, 0⟩)
      (updateMap (updateMap (updateMap (fun _ => none)
        ("a", "d") ⟨2026, 1, 31, 11, 0, 0, 0⟩)
        ("a", "d") ⟨2026, 1, 31, 12, 0, 0, 0⟩)
        ("a", "d") ⟨2026, 1, 31, 10, 0, 0, 0⟩)
      ("a", "d") (by decide) rfl rfl).2⟩

/-- A successful `firstMatch` comes from the first format in list order
whose parse succeeds: all earlier formats fail. -/
theorem firstMatch_some (fs : List (List Char → Option DateTime)) (cs : List Char)
    (d : DateTime) (h : firstMatch fs cs = some d) :
    ∃ i, i < fs.length ∧ (fs.getD i noFmt) cs = some d ∧
      ∀ f ∈ fs.take i, f cs = none := by
  induction fs with
  | nil => simp [firstMatch] at h
  | cons f fs ih =>
    cases hf : f cs with
    | some e =>
      have he : e = d := by simpa [firstMatch, hf] using h
      exact ⟨0, by simp, by simpa [he] using hf, by simp⟩
    | none =>
      have h' : firstMatch fs cs = some d := by simpa [firstMatch, hf] using h
      obtain ⟨i, hi, hg, hpre⟩ := ih h'
      refine ⟨i + 1, by simpa using hi, by simpa using hg, ?_⟩
      intro g hg'
      rw [List.take_succ_cons] at hg'
      rcases List.mem_cons.1 hg' with hgf | hgt
      · rw [hgf]; exact hf
      · exact hpre g hgt

/-- C6 amended: `parse_available_date` tries the eight format patterns
in exactly the source order and returns the instant produced by the
first pattern that matches; on an input matching none of them it fails
with `InvalidDateFormat` carrying the whitespace-STRIPPED input string
(identical to the original input whenever that input carries no
surrounding whitespace). -/
theorem date_parse_ordered_first_match (s : String) :
    (∀ d, parseAvailableDate s = .ok d →
      ∃ i, i < dateFormats.length ∧
        (dateFormats.getD i noFmt) (pyStrip s).data = some d ∧
        ∀ f ∈ dateFormats.take i, f (pyStrip s).data = none) ∧
    (pFmt1 (pyStrip s).data = none → pFmt2 (pyStrip s).data = none →
      pFmt3 (pyStrip s).data = none → pFmt4 (pyStrip s).data = none →
      pFmt5 (pyStrip s).data = none → pFmt6 (pyStrip s).data = none →
      pFmt7 (pyStrip s).data = none → pFmt8 (pyStrip s).data = none →
      parseAvailableDate s = .error (.invalidDateFormat (pyStrip s))) := by
  constructor
  · intro d h
    simp only [parseAvailableDate] at h
    cases hfm : firstMatch dateFormats (pyStrip s).data with
    | none => rw [hfm] at h; exact absurd h (by simp)
    | some e =>
      rw [hfm] at h
      have he : e = d := by simpa using h
      exact firstMatch_some _ _ _ (he ▸ hfm)
  · intro h1 h2 h3 h4 h5 h6 h7 h8
    simp [parseAvailableDate, dateFormats, firstMatch, h1, h2, h3, h4, h5, h6, h7, h8]

/-- Witness for the C6 amended theorem: no format matches
`"not a date"` and the error carries that (already trimmed) string. -/
theorem date_parse_ordered_first_match_witness :
    pFmt1 (pyStrip "not a date").data = none ∧
    pFmt8 (pyStrip "not a date").data = none ∧
    parseAvailableDate "not a date" = .error (.invalidDateFormat "not a date") :=
  ⟨by decide, by decide,
    (date_parse_ordered_first_match "not a date").2 (by decide) (by decide) (by decide)
      (by decide) (by decide) (by decide) (by decide) (by decide)⟩

/-- Every error of the baseline data-row loop is an unclassified
`KeyError` or `AttributeError`, or an `EmptyField`. -/
theorem baselineDataLoop_error (fieldnames : List String) (rows : List (List String)) :
    ∀ n e, baselineDataLoop fieldnames n rows = .error e →
      (∃ k, e = .keyError k) ∨ e = .noneAttributeError ∨ ∃ m, e = .emptyField m := by
  induction rows with
  | nil => intro n e h; simp [baselineDataLoop] at h
  | cons row rest ih =>
    intro n e h
    cases row with
    | nil =>
      simp only [baselineDataLoop] at h
      exact ih n e h
    | cons x xs =>
      simp only [baselineDataLoop] at h
      split at h
      · exact Or.inl ⟨"Domain", (Except.error.inj h).symm⟩
      · exact Or.inr (Or.inl (Except.error.inj h).symm)
      · split at h
        · exact Or.inl ⟨"Agent Name", (Except.error.inj h).symm⟩
        · exact Or.inr (Or.inl (Except.error.inj h).symm)
        · split at h
          · exact Or.inr (Or.inr ⟨n, (Except.error.inj h).symm⟩)
          · cases hr : baselineDataLoop fieldnames (n + 1) rest with
            | error e' =>
              rw [hr] at h
              simp only [Except.map, Except.error.injEq] at h
              exact h ▸ ih (n + 1) e' hr
            | ok rs => rw [hr] at h; simp [Except.map] at h

/-- C9 amended: every failure of `validate_baseline_csv` is one of
`FileNotFound`, `EmptyFile`, `HeaderMismatch`, `EmptyField`,
`NoRecords` — or one of two UNCLASSIFIED faults of the row loop: a data
row with fewer than two fields raises an `AttributeError`
(`csv.DictReader` pads the missing `Agent Name` with `None` and
`None.strip()` faults), and a header that matches the expected columns
only after stripping (such as `Domain, Agent Name`) leaves the row
dictionaries keyed on the raw fieldnames, so `row["Agent Name"]` raises
a `KeyError` on the first non-blank data row.  A row with at least two
fields under the exactly-matching header whose trimmed domain or agent
name is empty does fail with `EmptyField` naming the 1-based row
number. -/
theorem baseline_error_classified (file : FileInput) (e : PyError)
    (h : validateBaselineCsv file = .error e) :
    (e = .fileNotFound ∨ e = .emptyFile ∨ (∃ hs, e = .headerMismatch hs) ∨
      (∃ n, e = .emptyField n) ∨ e = .noRecords ∨ e = .noneAttributeError ∨
      (∃ k, e = .keyError k)) ∧
    (∀ n (rows : List (List String)) (x : String),
      baselineDataLoop ["Domain", "Agent Name"] n ([x] :: rows) =
        .error .noneAttributeError) ∧
    (∀ n (rows : List (List String)) (x y : String) (ys : List String),
      baselineDataLoop ["Domain", " Agent Name"] n ((x :: y :: ys) :: rows) =
        .error (.keyError "Agent Name")) ∧
    (∀ n (rows : List (List String)) (x y : String) (ys : List String),
      pyStrip x = "" ∨ pyStrip y = "" →
        baselineDataLoop ["Domain", "Agent Name"] n ((x :: y :: ys) :: rows) =
          .error (.emptyField n)) := by
  refine ⟨?_, fun n rows x => rfl, fun n rows x y ys => rfl,
    fun n rows x y ys hxy => by
      show (if pyStrip x = "" ∨ pyStrip y = "" then
          (.error (.emptyField n) : Except PyError (List (String × String)))
        else (baselineDataLoop ["Domain", "Agent Name"] (n + 1) rows).map
          ((pyStrip x, pyStrip y) :: ·)) = .error (.emptyField n)
      rw [if_pos hxy]⟩
  cases file with
  | missing =>
    simp only [validateBaselineCsv] at h
    exact Or.inl (Except.error.inj h).symm
  | present lines =>
    simp only [validateBaselineCsv] at h
    split at h
    · exact Or.inr (Or.inl (Except.error.inj h).symm)
    · split at h
      · split at h
        · rename_i e' heq
          rcases baselineDataLoop_error _ _ _ _ heq with hke | hfault | hef
          · obtain ⟨k, hk⟩ := hke
            exact Or.inr (Or.inr (Or.inr (Or.inr (Or.inr (Or.inr
              ⟨k, (Except.error.inj h) ▸ hk⟩)))))
          · exact Or.inr (Or.inr (Or.inr (Or.inr (Or.inr (Or.inl
              ((Except.error.inj h) ▸ hfault))))))
          · obtain ⟨m, hm⟩ := hef
            exact Or.inr (Or.inr (Or.inr (Or.inl ⟨m, (Except.error.inj h) ▸ hm⟩)))
        · exact Or.inr (Or.inr (Or.inr (Or.inr (Or.inl (Except.error.inj h).symm))))
        · exact absurd h (by simp)
      · exact Or.inr (Or.inr (Or.inl ⟨_, (Except.error.inj h).symm⟩))

/-- Witness for the C9 amended theorem: a two-field row with an empty
domain fails with `EmptyField` naming row 2, and the stripped-only
header `Domain, Agent Name` makes the first data row fail with the
unclassified `KeyError` on `"Agent Name"`. -/
theorem baseline_error_classified_witness :
    validateBaselineCsv (.present ["Domain,Agent Name", ",x"]) =
      .error (.emptyField 2) ∧
    ((PyError.emptyField 2) = .fileNotFound ∨ (PyError.emptyField 2) = .emptyFile ∨
      (∃ hs, (PyError.emptyField 2) = .headerMismatch hs) ∨
      (∃ n, (PyError.emptyField 2) = .emptyField n) ∨
      (PyError.emptyField 2) = .noRecords ∨
      (PyError.emptyField 2) = .noneAttributeError ∨
      (∃ k, (PyError.emptyField 2) = .keyError k)) ∧
    validateBaselineCsv (.present ["Domain, Agent Name", "x,y"]) =
      .error (.keyError "Agent Name") ∧
    ((PyError.keyError "Agent Name") = .fileNotFound ∨
      (PyError.keyError "Agent Name") = .emptyFile ∨
      (∃ hs, (PyError.keyError "Agent Name") = .headerMismatch hs) ∨
      (∃ n, (PyError.keyError "Agent Name") = .emptyField n) ∨
      (PyError.keyError "Agent Name") = .noRecords ∨
      (PyError.keyError "Agent Name") = .noneAttributeError ∨
      (∃ k, (PyError.keyError "Agent Name") = .keyError k)) :=
  ⟨rfl,
    (baseline_error_classified (.present ["Domain,Agent Name", ",x"])
      (.emptyField 2) rfl).1,
    rfl,
    (baseline_error_classified (.present ["Domain, Agent Name", "x,y"])
      (.keyError "Agent Name") rfl).1⟩

end AgentAvailability
